import Mathlib

/-!
Verification of the session-leased RPC client `PgClient::Impl`
(src/src/yb/yql/pggate/pg_client.cc).

The client keeps a logical session alive on a remote tserver by periodic
heartbeats.  We give a shallow embedding of the implementation:

* pure request/response protobuf records and statuses;
* a record `ImplState` of the fields of `PgClient::Impl`;
* the operations (`Start`, `Shutdown`, `Heartbeat`, the heartbeat completion
  handler, the business operations, the RPC-controller helpers) as pure
  functions on `ImplState`, with external non-determinism (the transport
  outcome, the embedded response status, the clock) passed as arguments;
* a small transition system `Step`/`Reaches` for the concurrent lifecycle
  (timer ticks racing with shutdown), whose side conditions encode the
  stop-and-drain contract of the `rpc::Poller` collaborator (that collaborator
  lives in `yb/rpc/poller.h`, outside the sources at hand, so its contract is
  modelled from the specification: `Shutdown()` stops the poller and blocks
  until no further invocation of the callback will occur, and is safe on a
  poller that was never started).

Machine integers: `session_id_` is `uint64_t`, durations are `std::chrono`
values; we use `Nat` for all of them, with an explicit `% 2 ^ 64` where the
C++ unsigned arithmetic can wrap (the heartbeat poll period).  Time points
(`CoarseTimePoint`) are `Nat` milliseconds since the clock epoch, with `0`
standing for the default-constructed `CoarseTimePoint()` sentinel.
-/

/-- Remote/RPC status: either OK or an error carrying the failure reason,
modelling `yb::Status`. -/
inductive Status where
  | ok : Status
  | error (msg : String) : Status
deriving DecidableEq, Repr

/-- Whether a status is OK, modelling `Status::ok()`. -/
def Status.isOk : Status → Bool
  | .ok => true
  | .error _ => false

/-- The heartbeat request proto `tserver::PgHeartbeatRequestPB`.  A proto
field that the code never sets stays `none`. -/
structure PgHeartbeatRequestPB where
  create : Bool := false
  session_id : Option Nat := none
deriving DecidableEq, Repr

/-- The heartbeat response proto; `status` is its embedded status, the value
`ResponseStatus(heartbeat_resp_)` extracts. -/
structure PgHeartbeatResponsePB where
  status : Status := .ok
deriving DecidableEq, Repr

/-- Extracts the embedded status of a heartbeat response, modelling
`ResponseStatus(heartbeat_resp_)`. -/
def ResponseStatus (resp : PgHeartbeatResponsePB) : Status := resp.status

/-- Configuration flags consumed by the client.
`heartbeat_interval_ms` models `FLAGS_pg_client_heartbeat_interval_ms`
(a `uint64` flag defined in this file with default 10000);
`admin_timeout_sec` models `FLAGS_yb_client_admin_operation_timeout_sec`,
which is only `DECLARE`d here and defined elsewhere, so it stays a parameter. -/
structure Config where
  heartbeat_interval_ms : Nat := 10000
  admin_timeout_sec : Nat
deriving DecidableEq, Repr

/-- Bound placed on an `rpc::RpcController`: either an absolute deadline
(`set_deadline`, a `CoarseTimePoint` in ms) or a relative timeout
(`set_timeout`, a duration in ms). -/
inductive RpcControllerBound where
  | deadline (t : Nat)
  | timeout (d : Nat)
deriving DecidableEq, Repr

/-- Models `SetupAdminController(controller, deadline)`: if the deadline is
not the default-constructed `CoarseTimePoint()` (the `0` sentinel), bound the
controller by exactly that deadline; otherwise set the timeout to
`FLAGS_yb_client_admin_operation_timeout_sec * 1s` (in ms). -/
def SetupAdminController (admin_timeout_sec : Nat) (deadline : Nat) : RpcControllerBound :=
  if deadline ≠ 0 then
    .deadline deadline
  else
    .timeout (admin_timeout_sec * 1000)

/-- Models `PrepareAdminController(deadline)` (reset `controller_`, then
`SetupAdminController`); the C++ default argument is `CoarseTimePoint()`,
i.e. `0`. -/
def PrepareAdminController (admin_timeout_sec : Nat) (deadline : Nat := 0) : RpcControllerBound :=
  SetupAdminController admin_timeout_sec deadline

/-- Models `PrepareHeartbeatController()`: reset `heartbeat_controller_`, then
`SetupAdminController` with deadline `CoarseMonoClock::now() +
FLAGS_pg_client_heartbeat_interval_ms * 1ms`. -/
def PrepareHeartbeatController (admin_timeout_sec : Nat) (now : Nat)
    (heartbeat_interval_ms : Nat) : RpcControllerBound :=
  SetupAdminController admin_timeout_sec (now + heartbeat_interval_ms)

/-- The poll period `FLAGS_pg_client_heartbeat_interval_ms * 1ms - 1s` that
`Start` hands to `Poller::Start`.  The flag is `uint64_t`, `1ms` has a signed
representation, and `std::common_type` of the two representations is
`uint64_t`, so the subtraction is performed on `duration<uint64_t, milli>`
and wraps modulo `2 ^ 64` when the interval is below 1000 ms. -/
def heartbeatPollPeriodMs (interval_ms : Nat) : Nat :=
  (interval_ms + (2 ^ 64 - 1000)) % 2 ^ 64

/-- The fields of `PgClient::Impl`.  `proxy` is whether `proxy_` holds a
transport handle; `session_id` is the `const` field `session_id_` chosen at
construction; `heartbeat_running` is the atomic flag `heartbeat_running_`;
`create_session_promise` is `create_session_promise_` (`none` while
unsettled); `pollerStarted`/`pollerPeriod`/`pollerStopped` record the state
of `heartbeat_poller_`. -/
structure ImplState where
  session_id : Nat
  proxy : Bool := false
  heartbeat_running : Bool := false
  create_session_promise : Option Status := none
  pollerStarted : Bool := false
  pollerPeriod : Option Nat := none
  pollerStopped : Bool := false
deriving DecidableEq, Repr

/-- A freshly constructed `PgClient::Impl` with session id `sid`
(`session_id_ = RandomUniformInt<uint64_t>()` is drawn at construction, so it
is a parameter of the model). -/
def ImplState.init (sid : Nat) : ImplState := { session_id := sid }

/-- Observable effect of one invocation of `Heartbeat`. -/
inductive HeartbeatEffect where
  /-- The single-flight guard fired: `LOG(DFATAL) << "Heartbeat did not
  complete yet"` and immediate return, no request sent. -/
  | loggedDfatal
  /-- `proxy_->HeartbeatAsync(req, ..., PrepareHeartbeatController(), ...)`
  dispatched `req` under the given controller bound. -/
  | sent (req : PgHeartbeatRequestPB) (ctrl : RpcControllerBound)
deriving DecidableEq, Repr

/-- Models `Heartbeat(create)`: first the atomic
`heartbeat_running_.compare_exchange_strong(false, true)` guard (return after
`LOG(DFATAL)` if a heartbeat is still outstanding), then build the request
(`set_create`, `set_session_id`) and dispatch it through `proxy_`.  The
result is `none` when the code would dereference a null `proxy_`. -/
def Heartbeat (cfg : Config) (s : ImplState) (create : Bool) (now : Nat) :
    Option (ImplState × HeartbeatEffect) :=
  if s.heartbeat_running then
    some (s, .loggedDfatal)
  else if s.proxy = false then
    none
  else
    some ({ s with heartbeat_running := true },
      .sent { create := create, session_id := some s.session_id }
        (PrepareHeartbeatController cfg.admin_timeout_sec now cfg.heartbeat_interval_ms))

/-- Observable effect of the heartbeat completion handler. -/
inductive HandlerEffect where
  /-- `create_session_promise_.set_value(status)` ran. -/
  | settledPromise (st : Status)
  /-- `LOG(WARNING) << "Heartbeat failed: " << status` ran; nothing else. -/
  | loggedWarning (st : Status)
  /-- Neither branch ran: only the outstanding flag was cleared. -/
  | cleared
deriving DecidableEq, Repr

/-- Models the completion callback registered by `Heartbeat`: compute
`status = ResponseStatus(heartbeat_resp_)`, clear `heartbeat_running_`, then
if this was the creation heartbeat settle the promise with the outcome
(`std::promise::set_value` throws if the promise is already satisfied, hence
the `none` result in that case), else log a warning when the status is
not OK. -/
def heartbeatCompletionHandler (create : Bool) (heartbeat_resp : PgHeartbeatResponsePB)
    (s : ImplState) : Option (ImplState × HandlerEffect) :=
  let status := ResponseStatus heartbeat_resp
  let s1 := { s with heartbeat_running := false }
  if create then
    match s1.create_session_promise with
    | some _ => none
    | none => some ({ s1 with create_session_promise := some status }, .settledPromise status)
  else if status.isOk = false then
    some (s1, .loggedWarning status)
  else
    some (s1, .cleared)

/-- Models `Start(proxy_cache, scheduler, tserver_shared_object)`:
construct `proxy_`, issue `Heartbeat(true)`, wait on
`create_session_promise_.get_future()` for the outcome the completion handler
delivers (`heartbeat_resp` is the response the transport hands that handler),
`RETURN_NOT_OK` it, and only then arm `heartbeat_poller_` with period
`FLAGS_pg_client_heartbeat_interval_ms * 1ms - 1s`.  `none` models a run that
never returns (`future.get()` blocking forever because the promise is never
settled) or that throws. -/
def Start (cfg : Config) (s : ImplState) (now : Nat)
    (heartbeat_resp : PgHeartbeatResponsePB) : Option (ImplState × Status) :=
  let s0 := { s with proxy := true }
  match Heartbeat cfg s0 true now with
  | none => none
  | some (_, .loggedDfatal) => none
  | some (s1, .sent _ _) =>
    match heartbeatCompletionHandler true heartbeat_resp s1 with
    | none => none
    | some (s2, _) =>
      match s2.create_session_promise with
      | none => none
      | some st =>
        if st.isOk then
          some ({ s2 with
            pollerStarted := true,
            pollerPeriod := some (heartbeatPollPeriodMs cfg.heartbeat_interval_ms) }, .ok)
        else
          some (s2, st)

/-- Modelled from the spec: `rpc::Poller::Shutdown` (declared in
`yb/rpc/poller.h`, outside the sources at hand) stops the repeating timer and
blocks until no further callback invocation will occur; it is safe on a
poller that was never started, so it never fails. -/
def pollerShutdown (s : ImplState) : Option ImplState :=
  some { s with pollerStopped := true }

/-- Models `proxy_ = nullptr`: `std::unique_ptr` assignment destroys the held
proxy if any; deleting a null pointer is a no-op and nothing is dereferenced,
so this never fails either. -/
def releaseProxyHandle (s : ImplState) : Option ImplState :=
  some { s with proxy := false }

/-- Models `Shutdown()`: `heartbeat_poller_.Shutdown(); proxy_ = nullptr;`
in that order. -/
def Shutdown (s : ImplState) : Option ImplState :=
  (pollerShutdown s).bind releaseProxyHandle

/-- Models the destructor `~Impl() { CHECK(!proxy_); }`: returns `true` when
the fatal check passes, `false` when destruction crashes because the
transport handle was never released. -/
def destructorCheck (s : ImplState) : Bool := !s.proxy

/-- Result of a synchronous admin call: the request as dispatched on the
wire, the controller bound it was issued under, and the operation's result. -/
structure AdminCall (ρ : Type) (α : Type) where
  sentReq : ρ
  ctrl : RpcControllerBound
  result : α
deriving DecidableEq, Repr

/-- The `RETURN_NOT_OK(...)` chain of a `Result<α>`-returning operation:
propagate the first non-OK status, otherwise produce the value. -/
def returnNotOk (st : Status) (rest : Except Status α) : Except Status α :=
  if st.isOk then rest else .error st

/-- Alter-table request: `body` stands for the caller-filled fields. -/
structure PgAlterTableRequestPB where
  body : Nat := 0
  session_id : Option Nat := none
deriving DecidableEq, Repr

structure PgAlterTableResponsePB where
  status : Status := .ok
deriving DecidableEq, Repr

/-- Models `AlterTable(req, deadline)`: stamp `req->set_session_id(session_id_)`,
dispatch under `PrepareAdminController(deadline)` (`transport` is the
status `proxy_->AlterTable` returns), `RETURN_NOT_OK` it, then return
`ResponseStatus(resp)`. -/
def AlterTable (cfg : Config) (s : ImplState) (req : PgAlterTableRequestPB)
    (deadline : Nat) (transport : Status) (resp : PgAlterTableResponsePB) :
    AdminCall PgAlterTableRequestPB Status :=
  let req := { req with session_id := some s.session_id }
  { sentReq := req,
    ctrl := PrepareAdminController cfg.admin_timeout_sec deadline,
    result := if transport.isOk then resp.status else transport }

structure PgCreateDatabaseRequestPB where
  body : Nat := 0
  session_id : Option Nat := none
deriving DecidableEq, Repr

structure PgCreateDatabaseResponsePB where
  status : Status := .ok
deriving DecidableEq, Repr

/-- Models `CreateDatabase(req, deadline)`, same shape as `AlterTable`. -/
def CreateDatabase (cfg : Config) (s : ImplState) (req : PgCreateDatabaseRequestPB)
    (deadline : Nat) (transport : Status) (resp : PgCreateDatabaseResponsePB) :
    AdminCall PgCreateDatabaseRequestPB Status :=
  let req := { req with session_id := some s.session_id }
  { sentReq := req,
    ctrl := PrepareAdminController cfg.admin_timeout_sec deadline,
    result := if transport.isOk then resp.status else transport }

structure PgCreateTableRequestPB where
  body : Nat := 0
  session_id : Option Nat := none
deriving DecidableEq, Repr

structure PgCreateTableResponsePB where
  status : Status := .ok
deriving DecidableEq, Repr

/-- Models `CreateTable(req, deadline)`, same shape as `AlterTable`. -/
def CreateTable (cfg : Config) (s : ImplState) (req : PgCreateTableRequestPB)
    (deadline : Nat) (transport : Status) (resp : PgCreateTableResponsePB) :
    AdminCall PgCreateTableRequestPB Status :=
  let req := { req with session_id := some s.session_id }
  { sentReq := req,
    ctrl := PrepareAdminController cfg.admin_timeout_sec deadline,
    result := if transport.isOk then resp.status else transport }

/-- Open-table request: the code sets only `table_id`; `session_id` models a
proto field the code leaves unset. -/
structure PgOpenTableRequestPB where
  table_id : Nat := 0
  session_id : Option Nat := none
deriving DecidableEq, Repr

/-- Open-table response; the table-schema payload is abstracted to `info`
and the partition list to `partitions_version`/`partitions_keys`, since their
decoding (`CreateTableInfoFromTableSchemaResp`) lives outside this file. -/
structure PgOpenTableResponsePB where
  status : Status := .ok
  info : Nat := 0
  partitions_version : Nat := 0
  partitions_keys : List Nat := []
deriving DecidableEq, Repr

/-- Models `OpenTable(table_id)`: request with only the table id set, no
explicit deadline (`PrepareAdminController()`), then the `RETURN_NOT_OK`
chain over the transport status, `ResponseStatus(resp)` and the schema
conversion (`convStatus` stands for the status of
`CreateTableInfoFromTableSchemaResp`, an external collaborator). -/
def OpenTable (cfg : Config) (s : ImplState) (table_id : Nat)
    (transport : Status) (resp : PgOpenTableResponsePB) (convStatus : Status) :
    AdminCall PgOpenTableRequestPB (Except Status (Nat × Nat × List Nat)) :=
  { sentReq := { table_id := table_id },
    ctrl := PrepareAdminController cfg.admin_timeout_sec,
    result :=
      returnNotOk transport <| returnNotOk resp.status <| returnNotOk convStatus <|
        .ok (resp.info, resp.partitions_version, resp.partitions_keys) }

structure PgGetDatabaseInfoRequestPB where
  oid : Nat := 0
  session_id : Option Nat := none
deriving DecidableEq, Repr

structure PgGetDatabaseInfoResponsePB where
  status : Status := .ok
  info : Nat := 0
deriving DecidableEq, Repr

/-- Models `GetDatabaseInfo(oid)`: request with only `oid` set, no explicit
deadline, then return `resp.info()` after the `RETURN_NOT_OK` chain. -/
def GetDatabaseInfo (cfg : Config) (s : ImplState) (oid : Nat)
    (transport : Status) (resp : PgGetDatabaseInfoResponsePB) :
    AdminCall PgGetDatabaseInfoRequestPB (Except Status Nat) :=
  { sentReq := { oid := oid },
    ctrl := PrepareAdminController cfg.admin_timeout_sec,
    result := returnNotOk transport <| returnNotOk resp.status <| .ok resp.info }

structure PgReserveOidsRequestPB where
  database_oid : Nat := 0
  next_oid : Nat := 0
  count : Nat := 0
  session_id : Option Nat := none
deriving DecidableEq, Repr

structure PgReserveOidsResponsePB where
  status : Status := .ok
  begin_oid : Nat := 0
  end_oid : Nat := 0
deriving DecidableEq, Repr

/-- Models `ReserveOids(database_oid, next_oid, count)`: request with exactly
those three fields set, no explicit deadline, result the pair
`(begin_oid, end_oid)`. -/
def ReserveOids (cfg : Config) (s : ImplState)
    (database_oid next_oid count : Nat)
    (transport : Status) (resp : PgReserveOidsResponsePB) :
    AdminCall PgReserveOidsRequestPB (Except Status (Nat × Nat)) :=
  { sentReq := { database_oid := database_oid, next_oid := next_oid, count := count },
    ctrl := PrepareAdminController cfg.admin_timeout_sec,
    result := returnNotOk transport <| returnNotOk resp.status <|
      .ok (resp.begin_oid, resp.end_oid) }

structure PgIsInitDbDoneRequestPB where
  session_id : Option Nat := none
deriving DecidableEq, Repr

structure PgIsInitDbDoneResponsePB where
  status : Status := .ok
  done : Bool := false
deriving DecidableEq, Repr

/-- Models `IsInitDbDone()`: empty request, no explicit deadline, result
`resp.done()`. -/
def IsInitDbDone (cfg : Config) (s : ImplState)
    (transport : Status) (resp : PgIsInitDbDoneResponsePB) :
    AdminCall PgIsInitDbDoneRequestPB (Except Status Bool) :=
  { sentReq := {},
    ctrl := PrepareAdminController cfg.admin_timeout_sec,
    result := returnNotOk transport <| returnNotOk resp.status <| .ok resp.done }

/-- State of the concurrent lifecycle: the poller/shutdown flags of the
client together with the number of heartbeat RPCs outstanding on the wire.
`heartbeat_running` mirrors the atomic flag; `inflight` counts dispatched
heartbeat requests whose completion callback has not run yet. -/
structure SysState where
  pollerStopped : Bool := false
  proxyReleased : Bool := false
  heartbeat_running : Bool := false
  inflight : Nat := 0
deriving DecidableEq, Repr

/-- The lifecycle state at the moment `Start` has armed the poller. -/
def SysState.start : SysState := {}

/-- Events of the concurrent lifecycle. -/
inductive Ev where
  /-- An invocation of `Heartbeat(create)`: a poller tick when `create` is
  false, the explicit call inside `Start` when `create` is true. -/
  | hbCall (create : Bool)
  /-- The transport runs the heartbeat completion callback. -/
  | complete
  /-- `heartbeat_poller_.Shutdown()` inside `Shutdown` returns. -/
  | stopPoller
  /-- `proxy_ = nullptr` inside `Shutdown`. -/
  | releaseProxy
deriving DecidableEq, Repr

/-- One atomic step of the concurrent lifecycle.

Side conditions record what each piece of code can observe:
* `hbGuard`/`hbSend` both require, for a tick (`create = false`), that the
  poller has not been shut down — that is the stop-and-drain contract of
  `rpc::Poller`, modelled from the spec (`Shutdown()` blocks until no further
  callback invocation will occur; a callback still running when `Shutdown()`
  is entered is waited for, which is why a tick is one atomic step here);
* `hbSend` additionally requires the compare-and-exchange on
  `heartbeat_running_` to succeed (the flag was `false`); `hbGuard` is the
  `LOG(DFATAL)`-and-return path when it was `true`.  Neither mentions
  `proxyReleased`: whether a tick can touch a released proxy is exactly what
  is to be proved, not assumed;
* `complete` fires only while a request is outstanding, clears the flag, and
  is not blocked by poller shutdown (the completion callback runs on the
  transport's reactor, not under the poller);
* `releaseProxy` requires `pollerStopped` because `Shutdown`'s body runs
  `heartbeat_poller_.Shutdown()` strictly before `proxy_ = nullptr`. -/
inductive Step : SysState → Ev → SysState → Prop where
  | hbGuard (s : SysState) (create : Bool) :
      s.heartbeat_running = true →
      (create = false → s.pollerStopped = false) →
      Step s (.hbCall create) s
  | hbSend (s : SysState) (create : Bool) :
      s.heartbeat_running = false →
      (create = false → s.pollerStopped = false) →
      Step s (.hbCall create)
        { s with heartbeat_running := true, inflight := s.inflight + 1 }
  | complete (s : SysState) :
      0 < s.inflight →
      Step s .complete { s with heartbeat_running := false, inflight := s.inflight - 1 }
  | stopPoller (s : SysState) :
      Step s .stopPoller { s with pollerStopped := true }
  | releaseProxy (s : SysState) :
      s.pollerStopped = true →
      Step s .releaseProxy { s with proxyReleased := true }

/-- Finite executions of the lifecycle: `Reaches s evs s'` means the event
list `evs` can run from `s` to `s'`. -/
inductive Reaches : SysState → List Ev → SysState → Prop where
  | done (s : SysState) : Reaches s [] s
  | more {s s' s'' : SysState} {e : Ev} {evs : List Ev} :
      Step s e s' → Reaches s' evs s'' → Reaches s (e :: evs) s''

/-- Once the poller is stopped it stays stopped: no step resets the flag. -/
theorem Step.pollerStopped_mono {s s' : SysState} {e : Ev} (h : Step s e s')
    (hs : s.pollerStopped = true) : s'.pollerStopped = true := by
  cases h <;> simp_all

/-- After the poller is stopped, no execution contains a timer tick. -/
theorem no_tick_after_stop {s : SysState} {evs : List Ev} {s' : SysState}
    (hr : Reaches s evs s') (hs : s.pollerStopped = true) :
    Ev.hbCall false ∉ evs := by
  induction hr with
  | done s => simp
  | more hstep _ ih =>
    intro hmem
    rcases List.mem_cons.mp hmem with heq | htail
    · subst heq
      cases hstep with
      | hbGuard c hrun hpoll => exact absurd hs (by simp [hpoll rfl])
      | hbSend c hrun hpoll => exact absurd hs (by simp [hpoll rfl])
    · exact ih (hstep.pollerStopped_mono hs) htail

/-- Splitting an execution at a chosen event. -/
theorem Reaches.split {s : SysState} {l1 : List Ev} {e : Ev} {l2 : List Ev}
    {s'' : SysState} (h : Reaches s (l1 ++ e :: l2) s'') :
    ∃ s0 s1, Reaches s l1 s0 ∧ Step s0 e s1 ∧ Reaches s1 l2 s'' := by
  induction l1 generalizing s with
  | nil =>
    cases h with
    | more hstep hrest => exact ⟨s, _, .done s, hstep, hrest⟩
  | cons e0 l1 ih =>
    cases h with
    | more hstep hrest =>
      obtain ⟨s0, s1, hr1, hstep1, hr2⟩ := ih hrest
      exact ⟨s0, s1, .more hstep hr1, hstep1, hr2⟩

/-- Single-flight invariant of the lifecycle state: at most one heartbeat
outstanding, and none outstanding while the flag is clear. -/
def SingleFlight (s : SysState) : Prop :=
  s.inflight ≤ 1 ∧ (s.heartbeat_running = false → s.inflight = 0)

/-- Every step preserves the single-flight invariant. -/
theorem Step.preservesSingleFlight {s s' : SysState} {e : Ev} (h : Step s e s')
    (hs : SingleFlight s) : SingleFlight s' := by
  obtain ⟨h1, h2⟩ := hs
  cases h with
  | hbGuard create hrun hpoll => exact ⟨h1, h2⟩
  | hbSend create hrun hpoll =>
    have h0 : s.inflight = 0 := h2 hrun
    exact ⟨by simp [h0], by simp⟩
  | complete hpos =>
    refine ⟨?_, fun _ => ?_⟩ <;> simp <;> omega
  | stopPoller => exact ⟨h1, h2⟩
  | releaseProxy hstop => exact ⟨h1, h2⟩

/-- The single-flight invariant holds in every state an execution reaches
from a state satisfying it. -/
theorem Reaches.holdsSingleFlight {s : SysState} {evs : List Ev} {s' : SysState}
    (hr : Reaches s evs s') (hs : SingleFlight s) : SingleFlight s' := by
  induction hr with
  | done s => exact hs
  | more hstep _ ih => exact ih (hstep.preservesSingleFlight hs)

/-- C1: After `Shutdown()` returns, no heartbeat callback executes again:
`Shutdown` first stops the repeating heartbeat poller (the stop blocks until
any already-scheduled tick has either not fired or has completed, so a tick
is an atomic event that requires the poller not to be stopped) and only then
releases the transport handle, so in every execution of the lifecycle no
heartbeat tick occurs after the transport handle is released. -/
theorem C1_no_heartbeat_callback_after_release :
    ∀ (evs : List Ev) (s' : SysState), Reaches SysState.start evs s' →
    ∀ (l1 l2 : List Ev), evs = l1 ++ Ev.releaseProxy :: l2 →
      Ev.hbCall false ∉ l2 := by
  intro evs s' hr l1 l2 heq
  subst heq
  obtain ⟨s0, s1, _, hstep, hr2⟩ := hr.split
  cases hstep with
  | releaseProxy hstop =>
    exact no_tick_after_stop hr2 (by simp [hstop])

/-- Witness for C1 at the concrete execution stop-then-release-then-stop. -/
theorem C1_no_heartbeat_callback_after_release_witness :
    Ev.hbCall false ∉ [Ev.stopPoller] :=
  C1_no_heartbeat_callback_after_release
    [Ev.stopPoller, Ev.releaseProxy, Ev.stopPoller] ⟨true, true, false, 0⟩
    (.more (.stopPoller _) (.more (.releaseProxy _ rfl) (.more (.stopPoller _) (.done _))))
    [Ev.stopPoller] [Ev.stopPoller] rfl

/-- C2: single-flight heartbeat invariant: in every reachable lifecycle state
at most one heartbeat round trip is outstanding, and an invocation of
`Heartbeat` (creation call or timer tick) that finds the `heartbeat_running_`
flag set logs `LOG(DFATAL)` and returns at once with the state unchanged,
sending no request; the flag update is the atomic compare-and-exchange
modelled by the `hbGuard`/`hbSend` steps. -/
theorem C2_single_flight_heartbeat :
    (∀ (evs : List Ev) (s' : SysState), Reaches SysState.start evs s' →
      s'.inflight ≤ 1) ∧
    (∀ (cfg : Config) (s : ImplState) (create : Bool) (now : Nat),
      s.heartbeat_running = true →
      Heartbeat cfg s create now = some (s, .loggedDfatal)) := by
  constructor
  · intro evs s' hr
    exact (hr.holdsSingleFlight ⟨by simp [SysState.start], fun _ => rfl⟩).1
  · intro cfg s create now h
    simp [Heartbeat, h]

/-- Witness for C2 at the empty execution and at a state with the flag set. -/
theorem C2_single_flight_heartbeat_witness :
    SysState.start.inflight ≤ 1 ∧
    Heartbeat { admin_timeout_sec := 120 }
        { session_id := 9, proxy := true, heartbeat_running := true } true 0 =
      some ({ session_id := 9, proxy := true, heartbeat_running := true },
        .loggedDfatal) :=
  ⟨C2_single_flight_heartbeat.1 [] SysState.start (.done _),
   C2_single_flight_heartbeat.2 _ _ true 0 rfl⟩

/-- C3: `Start` returns success if and only if the creation heartbeat's
remote status is OK; on a non-OK outcome it returns that exact status and
does not arm the repeating poller; the poller is armed only in the success
case. -/
theorem C3_start_iff_creation_ok :
    ∀ (cfg : Config) (sid now : Nat) (resp : PgHeartbeatResponsePB),
      ((ResponseStatus resp).isOk = true →
        ∃ s', Start cfg (ImplState.init sid) now resp = some (s', .ok) ∧
          s'.pollerStarted = true) ∧
      ((ResponseStatus resp).isOk = false →
        ∃ s', Start cfg (ImplState.init sid) now resp = some (s', ResponseStatus resp) ∧
          s'.pollerStarted = false ∧ s'.pollerPeriod = none) := by
  intro cfg sid now resp
  rcases resp with ⟨st⟩
  cases st with
  | ok =>
    exact ⟨fun _ => ⟨_, rfl, rfl⟩, fun h => by simp [ResponseStatus, Status.isOk] at h⟩
  | error msg =>
    exact ⟨fun h => by simp [ResponseStatus, Status.isOk] at h, fun _ => ⟨_, rfl, rfl, rfl⟩⟩

/-- Witness for C3: a creation heartbeat acknowledged OK makes `Start`
succeed and arm the poller. -/
theorem C3_start_iff_creation_ok_witness :
    ∃ s', Start { admin_timeout_sec := 120 } (ImplState.init 7) 0 { status := .ok } =
      some (s', .ok) ∧ s'.pollerStarted = true :=
  (C3_start_iff_creation_ok { admin_timeout_sec := 120 } 7 0 { status := .ok }).1 rfl

/-- Any run of `Start` that returns leaves the session id unchanged:
`session_id_` is `const` and no assignment to it exists. -/
theorem Start_session_id {cfg : Config} {s : ImplState} {now : Nat}
    {resp : PgHeartbeatResponsePB} {r : ImplState × Status}
    (h : Start cfg s now resp = some r) : r.1.session_id = s.session_id := by
  unfold Start at h
  cases hrun : s.heartbeat_running with
  | true => simp [Heartbeat, hrun] at h
  | false =>
    cases hcp : s.create_session_promise with
    | some st => simp [Heartbeat, hrun, heartbeatCompletionHandler, hcp] at h
    | none =>
      cases hok : (ResponseStatus resp).isOk <;>
        · simp [Heartbeat, hrun, heartbeatCompletionHandler, hcp, hok] at h
          subst h
          rfl

/-- C4 counterexample: the `ReserveOids` request is dispatched without the
session id — with session id 42 the wire request's `session_id` field is
unset, not 42. -/
theorem C4_counterexample :
    (ReserveOids { admin_timeout_sec := 120 } (ImplState.init 42) 1 2 3 .ok
        {}).sentReq.session_id ≠ some (ImplState.init 42).session_id ∧
    (ReserveOids { admin_timeout_sec := 120 } (ImplState.init 42) 1 2 3 .ok
        {}).sentReq.session_id = none := by
  exact ⟨by decide, rfl⟩

/-- C4 amended: heartbeats and the `AlterTable`, `CreateDatabase` and
`CreateTable` requests carry the session id assigned at construction, and
that id is immutable for the object's lifetime; the `OpenTable`,
`GetDatabaseInfo`, `ReserveOids` and `IsInitDbDone` requests are dispatched
with the session id field unset. -/
theorem C4_session_id_amended :
    ∀ (cfg : Config) (s : ImplState) (now deadline : Nat) (t cs : Status),
      (∀ req resp,
        (AlterTable cfg s req deadline t resp).sentReq.session_id = some s.session_id) ∧
      (∀ req resp,
        (CreateDatabase cfg s req deadline t resp).sentReq.session_id = some s.session_id) ∧
      (∀ req resp,
        (CreateTable cfg s req deadline t resp).sentReq.session_id = some s.session_id) ∧
      (∀ create s' req ctrl, Heartbeat cfg s create now = some (s', .sent req ctrl) →
        req.session_id = some s.session_id) ∧
      (∀ tid resp, (OpenTable cfg s tid t resp cs).sentReq.session_id = none) ∧
      (∀ oid resp, (GetDatabaseInfo cfg s oid t resp).sentReq.session_id = none) ∧
      (∀ a b c resp, (ReserveOids cfg s a b c t resp).sentReq.session_id = none) ∧
      (∀ resp, (IsInitDbDone cfg s t resp).sentReq.session_id = none) ∧
      (∀ create r, Heartbeat cfg s create now = some r → r.1.session_id = s.session_id) ∧
      (∀ create resp r, heartbeatCompletionHandler create resp s = some r →
        r.1.session_id = s.session_id) ∧
      (∀ resp r, Start cfg s now resp = some r → r.1.session_id = s.session_id) ∧
      (∀ r, Shutdown s = some r → r.session_id = s.session_id) := by
  intro cfg s now deadline t cs
  refine ⟨fun req resp => rfl, fun req resp => rfl, fun req resp => rfl,
    ?_, fun tid resp => rfl, fun oid resp => rfl, fun a b c resp => rfl,
    fun resp => rfl, ?_, ?_, fun resp r => Start_session_id, ?_⟩
  · intro create s' req ctrl h
    cases hrun : s.heartbeat_running <;> cases hp : s.proxy <;>
      simp [Heartbeat, hrun, hp] at h
    rw [← h.2.1]
  · intro create r h
    cases hrun : s.heartbeat_running <;> cases hp : s.proxy <;>
      simp [Heartbeat, hrun, hp] at h <;> subst h <;> rfl
  · intro create resp r h
    cases create <;>
      cases hcp : s.create_session_promise <;>
        cases hok : (ResponseStatus resp).isOk <;>
          simp [heartbeatCompletionHandler, hcp, hok] at h <;> subst h <;> rfl
  · intro r h
    simp [Shutdown, pollerShutdown, releaseProxyHandle] at h
    subst h
    rfl

/-- Witness for C4 amended: a concrete heartbeat request carries session id
5 while a concrete `ReserveOids` request carries none. -/
theorem C4_session_id_amended_witness :
    ({ create := false, session_id := some 5 } : PgHeartbeatRequestPB).session_id = some 5 ∧
    (ReserveOids { admin_timeout_sec := 120 } { session_id := 5, proxy := true } 1 2 3 .ok
        {}).sentReq.session_id = none :=
  ⟨(C4_session_id_amended { admin_timeout_sec := 120 } { session_id := 5, proxy := true }
      0 0 .ok .ok).2.2.2.1 false _ _ _ rfl,
   (C4_session_id_amended { admin_timeout_sec := 120 } { session_id := 5, proxy := true }
      0 0 .ok .ok).2.2.2.2.2.2.1 1 2 3 {}⟩

/-- C5: a business-operation call issued with an explicit deadline (any
`CoarseTimePoint` other than the default-constructed sentinel) is bounded by
exactly that deadline; one issued without an explicit deadline gets exactly
the configured default administrative-operation timeout; and every business
operation routes its controller through this policy. -/
theorem C5_deadline_policy :
    ∀ (tsec d : Nat),
      (d ≠ 0 → SetupAdminController tsec d = .deadline d) ∧
      (SetupAdminController tsec 0 = .timeout (tsec * 1000)) ∧
      (∀ (cfg : Config) (s : ImplState) (req : PgAlterTableRequestPB) (t : Status)
          (resp : PgAlterTableResponsePB),
        (AlterTable cfg s req d t resp).ctrl = SetupAdminController cfg.admin_timeout_sec d) ∧
      (∀ (cfg : Config) (s : ImplState) (req : PgCreateDatabaseRequestPB) (t : Status)
          (resp : PgCreateDatabaseResponsePB),
        (CreateDatabase cfg s req d t resp).ctrl = SetupAdminController cfg.admin_timeout_sec d) ∧
      (∀ (cfg : Config) (s : ImplState) (req : PgCreateTableRequestPB) (t : Status)
          (resp : PgCreateTableResponsePB),
        (CreateTable cfg s req d t resp).ctrl = SetupAdminController cfg.admin_timeout_sec d) ∧
      (∀ (cfg : Config) (s : ImplState) (tid : Nat) (t : Status)
          (resp : PgOpenTableResponsePB) (cstat : Status),
        (OpenTable cfg s tid t resp cstat).ctrl =
          .timeout (cfg.admin_timeout_sec * 1000)) ∧
      (∀ (cfg : Config) (s : ImplState) (oid : Nat) (t : Status)
          (resp : PgGetDatabaseInfoResponsePB),
        (GetDatabaseInfo cfg s oid t resp).ctrl =
          .timeout (cfg.admin_timeout_sec * 1000)) ∧
      (∀ (cfg : Config) (s : ImplState) (a b c : Nat) (t : Status)
          (resp : PgReserveOidsResponsePB),
        (ReserveOids cfg s a b c t resp).ctrl =
          .timeout (cfg.admin_timeout_sec * 1000)) ∧
      (∀ (cfg : Config) (s : ImplState) (t : Status) (resp : PgIsInitDbDoneResponsePB),
        (IsInitDbDone cfg s t resp).ctrl =
          .timeout (cfg.admin_timeout_sec * 1000)) := by
  intro tsec d
  refine ⟨fun h => by simp [SetupAdminController, h], by simp [SetupAdminController],
    fun _ _ _ _ _ => rfl, fun _ _ _ _ _ => rfl, fun _ _ _ _ _ => rfl,
    fun _ _ _ _ _ _ => rfl, fun _ _ _ _ _ => rfl, fun _ _ _ _ _ _ _ => rfl,
    fun _ _ _ _ => rfl⟩

/-- Witness for C5: deadline 5 is honored exactly; the sentinel falls back to
the 120 s default. -/
theorem C5_deadline_policy_witness :
    SetupAdminController 120 5 = .deadline 5 ∧
    SetupAdminController 120 0 = .timeout 120000 :=
  ⟨(C5_deadline_policy 120 5).1 (by decide), (C5_deadline_policy 120 0).2.1⟩

/-- C6 counterexample: with the spec's own 100 ms heartbeat interval,
`Start` succeeds but arms the poller with period
`100ms - 1s = 2 ^ 64 - 900` ms (unsigned wraparound), which is not strictly
less than the interval, so the claim that for every configured interval the
computed period is positive and strictly below the interval is false. -/
theorem C6_counterexample :
    heartbeatPollPeriodMs 100 = 2 ^ 64 - 900 ∧
    ¬ heartbeatPollPeriodMs 100 < 100 ∧
    (∃ s', Start { heartbeat_interval_ms := 100, admin_timeout_sec := 120 }
        (ImplState.init 7) 0 { status := .ok } = some (s', .ok) ∧
      s'.pollerPeriod = some (heartbeatPollPeriodMs 100)) :=
  ⟨by decide, by decide, ⟨_, rfl, rfl⟩⟩

/-- C6 amended: on successful `Start` the poller is armed with period
`interval - 1s` computed in wrapping unsigned duration arithmetic.  Whenever
the configured interval exceeds 1000 ms (the default is 10000 ms) the period
equals `interval - 1000` ms, which is positive and strictly less than the
interval.  For an interval of exactly 1000 ms the period is 0, so it is not
positive; for intervals below 1000 ms the arithmetic wraps to
`interval + 2 ^ 64 - 1000` ms, which is not less than the interval. -/
theorem C6_poll_period_amended :
    (∀ (cfg : Config) (sid now : Nat),
      ∃ s', Start cfg (ImplState.init sid) now { status := .ok } = some (s', .ok) ∧
        s'.pollerPeriod = some (heartbeatPollPeriodMs cfg.heartbeat_interval_ms)) ∧
    (∀ interval_ms : Nat, 1000 < interval_ms → interval_ms < 2 ^ 64 →
      heartbeatPollPeriodMs interval_ms = interval_ms - 1000 ∧
      0 < heartbeatPollPeriodMs interval_ms ∧
      heartbeatPollPeriodMs interval_ms < interval_ms) ∧
    heartbeatPollPeriodMs 1000 = 0 ∧
    (∀ interval_ms : Nat, interval_ms < 1000 →
      heartbeatPollPeriodMs interval_ms = interval_ms + (2 ^ 64 - 1000) ∧
      ¬ heartbeatPollPeriodMs interval_ms < interval_ms) := by
  have h64 : (2 : Nat) ^ 64 = 18446744073709551616 := by norm_num
  refine ⟨?_, ?_, by decide, ?_⟩
  · intro cfg sid now
    exact ⟨_, rfl, rfl⟩
  · intro i h1 h2
    unfold heartbeatPollPeriodMs
    rw [h64] at h2 ⊢
    omega
  · intro i h1
    unfold heartbeatPollPeriodMs
    rw [h64]
    omega

/-- Witness for C6 amended at the default 10000 ms interval and at the
wrapping 100 ms interval. -/
theorem C6_poll_period_amended_witness :
    (heartbeatPollPeriodMs 10000 = 10000 - 1000 ∧
      0 < heartbeatPollPeriodMs 10000 ∧
      heartbeatPollPeriodMs 10000 < 10000) ∧
    (heartbeatPollPeriodMs 100 = 100 + (2 ^ 64 - 1000) ∧
      ¬ heartbeatPollPeriodMs 100 < 100) :=
  ⟨C6_poll_period_amended.2.1 10000 (by decide) (by decide),
   C6_poll_period_amended.2.2.2 100 (by decide)⟩

/-- C7: every heartbeat call is bounded by the deadline "time of issue plus
the heartbeat interval" — never by the relative default
administrative-operation timeout used for ordinary business calls — and the
controller `Heartbeat` dispatches under is exactly that deadline. -/
theorem C7_heartbeat_deadline :
    ∀ (tsec now interval : Nat), 0 < now →
      PrepareHeartbeatController tsec now interval = .deadline (now + interval) ∧
      (∀ d, PrepareHeartbeatController tsec now interval ≠ .timeout d) ∧
      (∀ (cfg : Config) (s : ImplState) (create : Bool) (s' : ImplState)
          (req : PgHeartbeatRequestPB) (ctrl : RpcControllerBound),
        Heartbeat cfg s create now = some (s', .sent req ctrl) →
        ctrl = .deadline (now + cfg.heartbeat_interval_ms)) := by
  intro tsec now interval hnow
  have key : ∀ t i, PrepareHeartbeatController t now i = .deadline (now + i) := by
    intro t i
    unfold PrepareHeartbeatController SetupAdminController
    rw [if_pos (by omega)]
  refine ⟨key tsec interval, ?_, ?_⟩
  · intro d h
    rw [key] at h
    exact RpcControllerBound.noConfusion h
  · intro cfg s create s' req ctrl h
    cases hrun : s.heartbeat_running <;> cases hp : s.proxy <;>
      simp [Heartbeat, hrun, hp] at h
    rw [← h.2.2, key]

/-- Witness for C7 at issue time 50 and interval 10000. -/
theorem C7_heartbeat_deadline_witness :
    PrepareHeartbeatController 120 50 10000 = .deadline (50 + 10000) :=
  (C7_heartbeat_deadline 120 50 10000 (by decide)).1

/-- C8: the heartbeat completion handler settles the creation handshake with
the outcome exactly once — success or failure alike — (a second settlement
attempt would throw, the `none` case); for a non-creation heartbeat a
failing outcome is only logged as a warning and never escalated, and a
succeeding outcome does nothing beyond clearing the outstanding flag. -/
theorem C8_completion_handler :
    ∀ (resp : PgHeartbeatResponsePB) (s : ImplState),
      (s.create_session_promise = none →
        heartbeatCompletionHandler true resp s =
          some ({ s with heartbeat_running := false,
                         create_session_promise := some (ResponseStatus resp) },
            .settledPromise (ResponseStatus resp))) ∧
      (∀ st, s.create_session_promise = some st →
        heartbeatCompletionHandler true resp s = none) ∧
      ((ResponseStatus resp).isOk = false →
        heartbeatCompletionHandler false resp s =
          some ({ s with heartbeat_running := false },
            .loggedWarning (ResponseStatus resp))) ∧
      ((ResponseStatus resp).isOk = true →
        heartbeatCompletionHandler false resp s =
          some ({ s with heartbeat_running := false }, .cleared)) := by
  intro resp s
  refine ⟨fun h => ?_, fun st h => ?_, fun h => ?_, fun h => ?_⟩ <;>
    simp [heartbeatCompletionHandler, h]

/-- Witness for C8: an OK creation outcome settles the promise with OK. -/
theorem C8_completion_handler_witness :
    heartbeatCompletionHandler true { status := .ok }
        { session_id := 3, proxy := true, heartbeat_running := true } =
      some ({ session_id := 3, proxy := true, heartbeat_running := false,
              create_session_promise := some .ok },
        .settledPromise .ok) :=
  (C8_completion_handler { status := .ok }
    { session_id := 3, proxy := true, heartbeat_running := true }).1 rfl

/-- C9: `Shutdown()` on a client that was never started does not crash: the
poller-stop step no-ops on the never-started poller and the absent (null)
transport handle is released without any dereference, so `Shutdown` returns
a value on the freshly constructed state. -/
theorem C9_shutdown_without_start :
    ∀ sid : Nat,
      (ImplState.init sid).proxy = false ∧
      (ImplState.init sid).pollerStarted = false ∧
      Shutdown (ImplState.init sid) =
        some { ImplState.init sid with pollerStopped := true, proxy := false } := by
  intro sid
  exact ⟨rfl, rfl, rfl⟩

/-- C10: the destructor `CHECK(!proxy_)` fails fatally on any state a
completed `Start` run produced (success or failure, the transport handle
exists), and passes again after `Shutdown` released the handle — so a
started client must be shut down before destruction. -/
theorem C10_destructor_requires_shutdown :
    ∀ (cfg : Config) (s : ImplState) (now : Nat) (resp : PgHeartbeatResponsePB)
      (s' : ImplState) (st : Status),
      Start cfg s now resp = some (s', st) →
      destructorCheck s' = false ∧
      (∀ s'', Shutdown s' = some s'' → destructorCheck s'' = true) := by
  intro cfg s now resp s' st h
  have hp : s'.proxy = true := by
    unfold Start at h
    cases hrun : s.heartbeat_running with
    | true => simp [Heartbeat, hrun] at h
    | false =>
      cases hcp : s.create_session_promise with
      | some st0 => simp [Heartbeat, hrun, heartbeatCompletionHandler, hcp] at h
      | none =>
        cases hok : (ResponseStatus resp).isOk <;>
          · simp [Heartbeat, hrun, heartbeatCompletionHandler, hcp, hok] at h
            rw [← h.1]
  refine ⟨by simp [destructorCheck, hp], ?_⟩
  intro s'' h2
  simp [Shutdown, pollerShutdown, releaseProxyHandle] at h2
  subst h2
  simp [destructorCheck]

/-- Witness for C10 at a concrete successful `Start` run with session id 7
and the default 10000 ms interval. -/
theorem C10_destructor_requires_shutdown_witness :
    destructorCheck { session_id := 7, proxy := true, heartbeat_running := false,
                      create_session_promise := some .ok, pollerStarted := true,
                      pollerPeriod := some (heartbeatPollPeriodMs 10000) } = false ∧
    destructorCheck { session_id := 7, proxy := false, heartbeat_running := false,
                      create_session_promise := some .ok, pollerStarted := true,
                      pollerPeriod := some (heartbeatPollPeriodMs 10000),
                      pollerStopped := true } = true :=
  ⟨(C10_destructor_requires_shutdown { admin_timeout_sec := 120 } (ImplState.init 7) 0
      { status := .ok } _ .ok rfl).1,
   (C10_destructor_requires_shutdown { admin_timeout_sec := 120 } (ImplState.init 7) 0
      { status := .ok } _ .ok rfl).2 _ rfl⟩
